import Mathlib

set_option maxRecDepth 10000

/-!
Verification of the AS608 fingerprint-sensor protocol engine.

The development shallowly embeds, over lists of natural-number bytes:
* the packet codec (as608_build_cmd_packet, as608_parse_response from
  components/as608/as608_protocol.c, identical logic to
  components/khoa_as608/as608_protocol.cpp);
* the transport reader of as608_send_cmd (components/as608/as608.c),
  modelling each uart read as a greedy take from the remaining byte stream;
* the AS608 class state machines (startEnroll, startMatch, processEnroll,
  processMatch, the synchronous command wrappers) from
  components/khoa_as608/as608.cpp;
* the queue-driven worker command handler process_cmd from main/finger/finger.c.

Machine integers are Nat with explicit mod where the C source wraps:
uint16_t accumulations are folds with mod 65536, the size_t underflow in
parse is an explicit mod 2^64.
-/

namespace AS608V

/-- ESP-IDF error codes used by the driver, as an enumeration. -/
inductive EspErr where
  | ok
  | fail
  | timeout
  | invalidArg
  | invalidState
  | invalidSize
  | invalidResponse
  | invalidCrc
  | notFound
  | noMem
  deriving DecidableEq, Repr

/-- Header byte 0xEF (AS608_HEADER_HIGH). -/
def HDR_HI : Nat := 0xEF

/-- Header byte 0x01 (AS608_HEADER_LOW). -/
def HDR_LO : Nat := 0x01

/-- Packet id of a command packet (AS608_PID_COMMAND). -/
def PID_CMD : Nat := 0x01

/-- Packet id of an acknowledge packet (AS608_PID_ACK). -/
def PID_ACK : Nat := 0x07

/-- Modulus of the 64-bit size_t type. -/
def SIZE_T_MOD : Nat := 2 ^ 64

/-- Running sum of a byte list in a uint16_t accumulator: every addition
wraps mod 65536, exactly as the C loops do. -/
def u16sum (l : List Nat) : Nat :=
  l.foldl (fun a b => (a + b) % 65536) 0

/-- as608_build_cmd_packet (as608_protocol.c): header, broadcast address,
command pid, big-endian length 1 + params + 2, instruction byte, parameters,
big-endian uint16 checksum over pid, length bytes, instruction and
parameters. -/
def as608_build_cmd_packet (cmd : Nat) (params : List Nat) : List Nat :=
  let length := (1 + params.length + 2) % 65536
  let lenHi := length / 256 % 256
  let lenLo := length % 256
  let checksum := u16sum ([PID_CMD, lenHi, lenLo, cmd] ++ params)
  [HDR_HI, HDR_LO, 0xFF, 0xFF, 0xFF, 0xFF, PID_CMD, lenHi, lenLo, cmd]
    ++ params ++ [checksum / 256 % 256, checksum % 256]

/-- Declared length field of a response buffer: big-endian bytes 7 and 8. -/
def declaredLen (buf : List Nat) : Nat :=
  buf.getD 7 0 * 256 + buf.getD 8 0

/-- Checksum computed by as608_parse_response over a buffer with declared
length L: the uint16 running sum of bytes 6 .. 9+L-3 (the loop
for i = 6; i < 9 + length - 2). -/
def chkCalc (buf : List Nat) (L : Nat) : Nat :=
  u16sum ((buf.drop 6).take (L + 1))

/-- Received checksum: big-endian bytes at offsets 9+L-2 and 9+L-1. -/
def chkRecv (buf : List Nat) (L : Nat) : Nat :=
  buf.getD (7 + L) 0 * 256 + buf.getD (8 + L) 0

/-- as608_parse_response (as608_protocol.c lines 58-111).  On success the
returned pair is the confirmation byte at offset 9 and the value stored to
the size_t data_len out-parameter, which the C computes as length - 3 in
int arithmetic converted to size_t, hence the mod 2^64.  The payload itself
starts at offset 10 of the buffer. -/
def as608_parse_response (buf : List Nat) : Except EspErr (Nat × Nat) :=
  if buf.length < 12 then .error .invalidSize
  else if ¬(buf.getD 0 0 = HDR_HI ∧ buf.getD 1 0 = HDR_LO) then .error .invalidResponse
  else if buf.getD 6 0 ≠ PID_ACK then .error .invalidResponse
  else
    let L := declaredLen buf
    if 9 + L > buf.length then .error .invalidSize
    else if chkCalc buf L ≠ chkRecv buf L then .error .invalidCrc
    else .ok (buf.getD 9 0, (L + SIZE_T_MOD - 3) % SIZE_T_MOD)

/-- Header scan of as608_send_cmd (as608.c lines 207-213): first index i with
buf[i] = 0xEF and buf[i+1] = 0x01, scanning pairs while i < length - 1. -/
def findHeaderFrom : List Nat → Nat → Option Nat
  | a :: b :: rest, i =>
      if a = HDR_HI ∧ b = HDR_LO then some i else findHeaderFrom (b :: rest) (i + 1)
  | _, _ => none

/-- Header scan starting at offset 0. -/
def findHeader (l : List Nat) : Option Nat :=
  findHeaderFrom l 0

/-- Prefix validation and body read of as608_send_cmd (as608.c lines 253-318).
The argument buf holds the bytes kept after resynchronisation, pos the number
of stream bytes already consumed.  Each uart read is modelled greedily: a
request for n bytes yields the next min(n, remaining) stream bytes, the
retry reads of the C collapsing into one take.  On success the result is the
response content: confirmation byte plus payload (pkt_length - 2 bytes,
with the int-to-size_t wrap mirrored for pkt_length < 2). -/
def recvValidate (s : List Nat) (buf : List Nat) (pos : Nat) : Except EspErr (List Nat) :=
  if ¬(buf.getD 0 0 = HDR_HI ∧ buf.getD 1 0 = HDR_LO) then .error .invalidResponse
  else if buf.getD 6 0 ≠ PID_ACK then .error .invalidResponse
  else
    let pkt := buf.getD 7 0 * 256 + buf.getD 8 0
    if pkt > 256 then .error .invalidResponse
    else
      let dat := if pkt > 0 then (s.drop pos).take pkt else []
      if pkt > 0 ∧ dat.length < pkt then .error .timeout
      else
        let fbuf := buf.take 9 ++ dat
        let csum := u16sum ((fbuf.drop 6).take (pkt + 1))
        let rcv := fbuf.getD (7 + pkt) 0 * 256 + fbuf.getD (8 + pkt) 0
        if csum ≠ rcv then .error .invalidCrc
        else .ok ((fbuf.drop 9).take ((pkt + SIZE_T_MOD - 2) % SIZE_T_MOD))

/-- Resynchronisation step of as608_send_cmd (as608.c lines 237-251): with k
the header offset inside the br bytes read so far, discard the first k bytes
and, if fewer than 9 bytes remain, read the missing prefix bytes.  rx_len is
then reset to 9, so any already-read bytes beyond the prefix are later
overwritten by the body read. -/
def recvAfterSync (s : List Nat) (br : List Nat) (k : Nat) : Except EspErr (List Nat) :=
  let pos := br.length
  if 0 < k then
    let buf0 := br.drop k
    if buf0.length < 9 then
      let need := 9 - buf0.length
      let more := (s.drop pos).take need
      if more.length < need then .error .timeout
      else recvValidate s (buf0 ++ more) (pos + need)
    else recvValidate s buf0 pos
  else recvValidate s br pos

/-- Receive path of as608_send_cmd (as608.c lines 183-318) applied to the
byte stream s the sensor line delivers: read 9 bytes, scan for the header,
on a miss read up to 16 further bytes and rescan, then resynchronise,
complete the 9-byte prefix, validate it and read the declared body. -/
def as608_recv (s : List Nat) : Except EspErr (List Nat) :=
  let r1 := s.take 9
  if r1.length < 9 then .error .timeout
  else
    match findHeader r1 with
    | some k => recvAfterSync s r1 k
    | none =>
        let br := r1 ++ (s.drop 9).take 16
        match findHeader br with
        | some k => recvAfterSync s br k
        | none => .error .invalidResponse

/-- EnrollState enumeration (as608.hpp). -/
inductive EnrollSt where
  | idle
  | waitFinger1
  | captureImage1
  | genChar1
  | waitRemoveFinger
  | waitFinger2
  | captureImage2
  | genChar2
  | createModel
  | storeModel
  | complete
  | failed
  deriving DecidableEq, Repr

/-- MatchState enumeration (as608.hpp). -/
inductive MatchSt where
  | idle
  | waitFinger
  | captureImage
  | genChar
  | search
  | complete
  | failed
  deriving DecidableEq, Repr

/-- Event enumeration (as608.hpp). -/
inductive AsEvent where
  | fingerDetected
  | fingerRemoved
  | enrollStart
  | enrollStep
  | enrollComplete
  | enrollFailed
  | matchStart
  | matchOk
  | matchFailed
  | errorEvt
  deriving DecidableEq, Repr

/-- EventData struct (as608.hpp); the constructor defaults are id -1,
score 0, step 0, totalSteps 0, error ESP_OK. -/
structure EventData where
  id : Int
  score : Nat
  step : Int
  totalSteps : Int
  error : EspErr
  deriving DecidableEq, Repr

/-- Default-constructed EventData. -/
def defED : EventData := ⟨-1, 0, 0, 0, .ok⟩

/-- Commands the state machines send to the sensor, with their parameter
bytes where a claim mentions them. -/
inductive CmdOp where
  | getImage
  | genCharOp (bufferId : Nat)
  | regModelOp
  | storeOp (id : Int)
  | searchOp (params : List Nat)
  deriving DecidableEq, Repr

/-- Mutable fields of the AS608 class that the claims concern. -/
structure AS608State where
  inited : Bool
  enrollState : EnrollSt
  enrollTargetId : Int
  enrollStep : Int
  enrollRetryCount : Int
  matchState : MatchSt
  matchRetryCount : Int
  deriving DecidableEq, Repr

/-- State after the AS608 constructor. -/
def as608Init : AS608State :=
  ⟨false, .idle, -1, 0, 0, .idle, 0⟩

/-- MAX_RETRY_COUNT (as608.hpp). -/
def MAX_RETRY_COUNT : Int := 3

/-- ENROLL_TOTAL_STEPS (as608.hpp). -/
def ENROLL_TOTAL_STEPS : Int := 6

/-- DEFAULT_LIBRARY_SIZE (as608.hpp). -/
def DEFAULT_LIBRARY_SIZE : Nat := 163

/-- Outcome of one executeCommand round trip: either a transport-level
esp_err (uart send or receive failure, parse failure) or the parsed
confirmation code with the response payload bytes. -/
abbrev Reply : Type := Except EspErr (Nat × List Nat)

/-- Esp errors of the transport taxonomy of the specification: timeout,
no-sync or malformed frame, checksum mismatch (the values the receive and
parse path produces for them). -/
def transportErr (e : EspErr) : Prop :=
  e = .timeout ∨ e = .invalidSize ∨ e = .invalidResponse ∨ e = .invalidCrc

/-- AS608::readImage: NO_FINGER confirmation maps to ESP_ERR_NOT_FOUND,
any other non-Ok confirmation to ESP_FAIL. -/
def readImageR (r : Reply) : EspErr :=
  match r with
  | .error e => e
  | .ok (c, _) => if c = 0x02 then .notFound else if c ≠ 0 then .fail else .ok

/-- AS608::genChar result mapping. -/
def genCharR (r : Reply) : EspErr :=
  match r with
  | .error e => e
  | .ok (c, _) => if c ≠ 0 then .fail else .ok

/-- AS608::regModel result mapping. -/
def regModelR (r : Reply) : EspErr :=
  match r with
  | .error e => e
  | .ok (c, _) => if c ≠ 0 then .fail else .ok

/-- AS608::store result mapping, including the id range check that runs
before any transfer. -/
def storeR (id : Int) (r : Reply) : EspErr :=
  if id < 0 ∨ id > 200 then .invalidArg
  else
    match r with
    | .error e => e
    | .ok (c, _) => if c ≠ 0 then .fail else .ok

/-- Parameter bytes AS608::search sends: buffer 1, start page 0, count
0x00A3. -/
def searchParams : List Nat := [0x01, 0x00, 0x00, 0x00, 0xA3]

/-- AS608::search result mapping: returns the esp_err together with the
values written to the matchId and score out-parameters (the C leaves them
unassigned on a transport failure and when the confirmation is neither Ok
nor NotFound nor NoMatch; callers read them only on ESP_OK, so the
placeholder pair 0,0 in those branches is never observed). -/
def searchR (r : Reply) : EspErr × Int × Nat :=
  match r with
  | .error e => (e, 0, 0)
  | .ok (c, d) =>
      if c = 0x09 ∨ c = 0x08 then (.notFound, -1, 0)
      else if c ≠ 0 then (.fail, 0, 0)
      else if d.length ≥ 4 then
        (.ok, (d.getD 0 0 : Int) * 256 + (d.getD 1 0 : Int), d.getD 2 0 * 256 + d.getD 3 0)
      else (.fail, -1, 0)

/-- AS608::resetEnrollState. -/
def resetEnroll (s : AS608State) : AS608State :=
  { s with enrollState := .idle, enrollTargetId := -1, enrollStep := 0, enrollRetryCount := 0 }

/-- AS608::resetMatchState. -/
def resetMatch (s : AS608State) : AS608State :=
  { s with matchState := .idle, matchRetryCount := 0 }

/-- AS608::startEnroll (as608.cpp lines 395-426): rejected with
ESP_ERR_INVALID_STATE unless initialized with both machines idle, rejected
with ESP_ERR_INVALID_ARG outside 0..200, otherwise arms the enrollment
machine and fires EnrollStart. -/
def startEnroll (s : AS608State) (targetId : Int) :
    EspErr × AS608State × List (AsEvent × EventData) :=
  if ¬s.inited then (.invalidState, s, [])
  else if s.enrollState ≠ .idle then (.invalidState, s, [])
  else if s.matchState ≠ .idle then (.invalidState, s, [])
  else if targetId < 0 ∨ targetId > 200 then (.invalidArg, s, [])
  else
    (.ok,
     { s with enrollTargetId := targetId, enrollStep := 0, enrollRetryCount := 0,
              enrollState := .waitFinger1 },
     [(.enrollStart, { defED with id := targetId, totalSteps := ENROLL_TOTAL_STEPS })])

/-- AS608::startMatch (as608.cpp lines 581-603). -/
def startMatch (s : AS608State) :
    EspErr × AS608State × List (AsEvent × EventData) :=
  if ¬s.inited then (.invalidState, s, [])
  else if s.matchState ≠ .idle then (.invalidState, s, [])
  else if s.enrollState ≠ .idle then (.invalidState, s, [])
  else (.ok, { s with matchRetryCount := 0, matchState := .waitFinger }, [(.matchStart, defED)])

/-- AS608::cancelEnroll. -/
def cancelEnroll (s : AS608State) : AS608State :=
  if s.enrollState ≠ .idle then resetEnroll s else s

/-- AS608::cancelMatch. -/
def cancelMatch (s : AS608State) : AS608State :=
  if s.matchState ≠ .idle then resetMatch s else s

/-- AS608::init effect on the modelled fields (the uart setup and the
handshake exchange leave them untouched). -/
def doInit (s : AS608State) : AS608State :=
  { s with inited := true }

/-- AS608::deinit. -/
def doDeinit (s : AS608State) : AS608State :=
  if s.inited then { cancelMatch (cancelEnroll s) with inited := false } else s

/-- One call of AS608::processEnroll (as608.cpp lines 442-575), the reply
parameter standing for the sensor exchange the active state performs.
Returns the successor state, the fired events and the command issued. -/
def processEnroll (s : AS608State) (r : Reply) :
    AS608State × List (AsEvent × EventData) × List CmdOp :=
  let base := { defED with id := s.enrollTargetId, totalSteps := ENROLL_TOTAL_STEPS }
  match s.enrollState with
  | .idle => (s, [], [])
  | .waitFinger1 =>
      let ret := readImageR r
      if ret = .ok then
        ({ s with enrollState := .genChar1 }, [(.fingerDetected, { base with step := 1 })],
         [.getImage])
      else if ret ≠ .notFound then
        if s.enrollRetryCount + 1 ≥ MAX_RETRY_COUNT then
          (resetEnroll s, [(.enrollFailed, { base with error := ret })], [.getImage])
        else
          ({ s with enrollRetryCount := s.enrollRetryCount + 1 }, [], [.getImage])
      else (s, [], [.getImage])
  | .genChar1 =>
      let ret := genCharR r
      if ret = .ok then
        ({ s with enrollStep := 1, enrollState := .waitRemoveFinger, enrollRetryCount := 0 },
         [(.enrollStep, { base with step := 1 })], [.genCharOp 1])
      else
        if s.enrollRetryCount + 1 ≥ MAX_RETRY_COUNT then
          (resetEnroll s, [(.enrollFailed, { base with error := ret })], [.genCharOp 1])
        else
          ({ s with enrollRetryCount := s.enrollRetryCount + 1, enrollState := .waitFinger1 },
           [], [.genCharOp 1])
  | .waitRemoveFinger =>
      let ret := readImageR r
      if ret = .notFound then
        ({ s with enrollStep := 2, enrollState := .waitFinger2, enrollRetryCount := 0 },
         [(.fingerRemoved, { base with step := 2 }), (.enrollStep, { base with step := 2 })],
         [.getImage])
      else (s, [], [.getImage])
  | .waitFinger2 =>
      let ret := readImageR r
      if ret = .ok then
        ({ s with enrollState := .genChar2 }, [(.fingerDetected, { base with step := 3 })],
         [.getImage])
      else if ret ≠ .notFound then
        if s.enrollRetryCount + 1 ≥ MAX_RETRY_COUNT then
          (resetEnroll s, [(.enrollFailed, { base with error := ret })], [.getImage])
        else
          ({ s with enrollRetryCount := s.enrollRetryCount + 1 }, [], [.getImage])
      else (s, [], [.getImage])
  | .genChar2 =>
      let ret := genCharR r
      if ret = .ok then
        ({ s with enrollStep := 3, enrollState := .createModel, enrollRetryCount := 0 },
         [(.enrollStep, { base with step := 3 })], [.genCharOp 2])
      else
        if s.enrollRetryCount + 1 ≥ MAX_RETRY_COUNT then
          (resetEnroll s, [(.enrollFailed, { base with error := ret })], [.genCharOp 2])
        else
          ({ s with enrollRetryCount := s.enrollRetryCount + 1, enrollState := .waitFinger2 },
           [], [.genCharOp 2])
  | .createModel =>
      let ret := regModelR r
      if ret = .ok then
        ({ s with enrollStep := 4, enrollState := .storeModel },
         [(.enrollStep, { base with step := 4 })], [.regModelOp])
      else
        (resetEnroll s, [(.enrollFailed, { base with error := ret })], [.regModelOp])
  | .storeModel =>
      let ret := storeR s.enrollTargetId r
      if ret = .ok then
        (resetEnroll { s with enrollStep := 6 },
         [(.enrollStep, { base with step := 5 }), (.enrollComplete, { base with step := 6 })],
         [.storeOp s.enrollTargetId])
      else
        (resetEnroll s, [(.enrollFailed, { base with error := ret })],
         [.storeOp s.enrollTargetId])
  | _ => (s, [], [])

/-- One call of AS608::processMatch (as608.cpp lines 617-683). -/
def processMatch (s : AS608State) (r : Reply) :
    AS608State × List (AsEvent × EventData) × List CmdOp :=
  match s.matchState with
  | .idle => (s, [], [])
  | .waitFinger =>
      let ret := readImageR r
      if ret = .ok then
        ({ s with matchState := .genChar }, [(.fingerDetected, defED)], [.getImage])
      else if ret ≠ .notFound then
        if s.matchRetryCount + 1 ≥ MAX_RETRY_COUNT then
          (resetMatch s, [(.errorEvt, { defED with error := ret })], [.getImage])
        else
          ({ s with matchRetryCount := s.matchRetryCount + 1 }, [], [.getImage])
      else (s, [], [.getImage])
  | .genChar =>
      let ret := genCharR r
      if ret = .ok then
        ({ s with matchState := .search, matchRetryCount := 0 }, [], [.genCharOp 1])
      else
        if s.matchRetryCount + 1 ≥ MAX_RETRY_COUNT then
          (resetMatch s, [(.matchFailed, { defED with error := ret })], [.genCharOp 1])
        else
          ({ s with matchRetryCount := s.matchRetryCount + 1, matchState := .waitFinger },
           [], [.genCharOp 1])
  | .search =>
      let res := searchR r
      if res.1 = .ok then
        (resetMatch s, [(.matchOk, { defED with id := res.2.1, score := res.2.2 })],
         [.searchOp searchParams])
      else if res.1 = .notFound then
        (resetMatch s, [(.matchFailed, defED)], [.searchOp searchParams])
      else
        (resetMatch s, [(.errorEvt, { defED with error := res.1 })], [.searchOp searchParams])
  | _ => (s, [], [])

/-- Fold of processEnroll over a list of replies, accumulating events and
commands. -/
def runEnroll (s : AS608State) : List Reply →
    AS608State × List (AsEvent × EventData) × List CmdOp
  | [] => (s, [], [])
  | r :: rs =>
      let step := processEnroll s r
      let rest := runEnroll step.1 rs
      (rest.1, step.2.1 ++ rest.2.1, step.2.2 ++ rest.2.2)

/-- Fold of processMatch over a list of replies. -/
def runMatch (s : AS608State) : List Reply →
    AS608State × List (AsEvent × EventData) × List CmdOp
  | [] => (s, [], [])
  | r :: rs =>
      let step := processMatch s r
      let rest := runMatch step.1 rs
      (rest.1, step.2.1 ++ rest.2.1, step.2.2 ++ rest.2.2)

/-- One externally triggered transition of the AS608 object: any public
call that can change the modelled fields. -/
inductive AsStep : AS608State → AS608State → Prop where
  | init (s : AS608State) : AsStep s (doInit s)
  | deinit (s : AS608State) : AsStep s (doDeinit s)
  | startEnrollStep (s : AS608State) (id : Int) : AsStep s (startEnroll s id).2.1
  | cancelEnrollStep (s : AS608State) : AsStep s (cancelEnroll s)
  | startMatchStep (s : AS608State) : AsStep s (startMatch s).2.1
  | cancelMatchStep (s : AS608State) : AsStep s (cancelMatch s)
  | processEnrollStep (s : AS608State) (r : Reply) : AsStep s (processEnroll s r).1
  | processMatchStep (s : AS608State) (r : Reply) : AsStep s (processMatch s r).1

/-- States the AS608 object can reach from construction. -/
inductive AsReachable : AS608State → Prop where
  | base : AsReachable as608Init
  | step {s s' : AS608State} : AsReachable s → AsStep s s' → AsReachable s'

/-- task_state_t of main/finger/finger.c. -/
inductive FingerTaskSt where
  | stIdle
  | stSearching
  | stEnrollStep1
  | stEnrollStep2
  | stEnrollStore
  deriving DecidableEq, Repr

/-- finger_cmd_t commands drained from the worker queue. -/
inductive FingerCmd where
  | cmdIdle
  | cmdSearch
  | cmdEnroll
  | cmdCancel
  deriving DecidableEq, Repr

/-- Finger events posted on the esp event loop, restricted to those
process_cmd can post. -/
inductive FingerEvt where
  | evtEnrollStart (fingerId : Int) (step : Nat)
  | evtEnrollFail
  | evtEnrollCancel
  deriving DecidableEq, Repr

/-- Static state of the finger worker that process_cmd touches. -/
structure FingerState where
  st : FingerTaskSt
  enrollId : Int
  templateCount : Nat
  deriving DecidableEq, Repr

/-- CFG_AS608_LIBRARY_SIZE (main/common/config.h). -/
def CFG_AS608_LIBRARY_SIZE : Nat := 162

/-- find_free_slot (finger.c lines 51-69). -/
def find_free_slot (templateCount : Nat) : Int :=
  if templateCount ≥ CFG_AS608_LIBRARY_SIZE then -1 else templateCount

/-- process_cmd (finger.c lines 71-126): handling of one queued command. -/
def process_cmd (s : FingerState) (cmd : FingerCmd) (param : Int) :
    FingerState × List FingerEvt :=
  match cmd with
  | .cmdIdle => ({ s with st := .stIdle, enrollId := -1 }, [])
  | .cmdSearch => ({ s with st := .stSearching }, [])
  | .cmdEnroll =>
      if param < 0 then
        let slot := find_free_slot s.templateCount
        if slot < 0 then ({ s with enrollId := slot, st := .stIdle }, [.evtEnrollFail])
        else
          ({ s with enrollId := slot, st := .stEnrollStep1 }, [.evtEnrollStart slot 1])
      else if param ≥ (CFG_AS608_LIBRARY_SIZE : Int) then
        ({ s with st := .stIdle }, [.evtEnrollFail])
      else
        ({ s with enrollId := param, st := .stEnrollStep1 }, [.evtEnrollStart param 1])
  | .cmdCancel =>
      if s.st ≠ .stIdle then
        ({ s with st := .stIdle, enrollId := -1 }, [.evtEnrollCancel])
      else ({ s with st := .stIdle, enrollId := -1 }, [])

/-- Checksum of the specification wording: the plain 16-bit sum (mod 2^16)
of the bytes from the packet-type field through the end of the payload of a
frame with declared length L, that is bytes 6 .. 6+L. -/
def specCheck (buf : List Nat) (L : Nat) : Nat :=
  ((buf.drop 6).take (L + 1)).sum % 65536

/-- Specification-side checksum mismatch condition for a response buffer:
the computed sum disagrees with the trailing two checksum bytes of the
frame. -/
def specMismatch (buf : List Nat) : Prop :=
  specCheck buf (declaredLen buf) ≠ chkRecv buf (declaredLen buf)

/-- Malformed-frame error class of the specification: the size and
response-shape esp errors parseResponse uses. -/
def malformedClass (e : EspErr) : Prop :=
  e = .invalidSize ∨ e = .invalidResponse

/-- Claim C1 as stated, instantiated at one buffer: parseResponse fails
with a malformed-frame error when the buffer is shorter than 12 bytes, the
header bytes are wrong or the packet type is not Ack; fails with a checksum
mismatch when the specification checksum disagrees with the trailing bytes;
and otherwise succeeds with the confirmation byte at offset 9 and payload
length declaredLen - 3. -/
def c1ClaimAt (buf : List Nat) : Prop :=
  (buf.length < 12 ∨ ¬(buf.getD 0 0 = HDR_HI ∧ buf.getD 1 0 = HDR_LO) ∨
      buf.getD 6 0 ≠ PID_ACK →
    as608_parse_response buf = .error .invalidSize ∨
    as608_parse_response buf = .error .invalidResponse) ∧
  (¬(buf.length < 12 ∨ ¬(buf.getD 0 0 = HDR_HI ∧ buf.getD 1 0 = HDR_LO) ∨
      buf.getD 6 0 ≠ PID_ACK) →
    (specMismatch buf → as608_parse_response buf = .error .invalidCrc) ∧
    (¬specMismatch buf →
      as608_parse_response buf = .ok (buf.getD 9 0, declaredLen buf - 3)))

/-- All bytes of a list are in range 0..255. -/
def bytesOk (l : List Nat) : Prop :=
  ∀ b ∈ l, b < 256

/-- A buffer flipped at a single bit: byte i is replaced by its xor with
2 to the bit. -/
def flipBit (buf : List Nat) (i bit : Nat) : List Nat :=
  buf.set i (buf.getD i 0 ^^^ 2 ^ bit)

/-- Claim C2 as stated, instantiated at the queue-driven finger worker: an
enroll request submitted while the search cycle is active is rejected and
leaves the searching state unchanged. -/
def c2ClaimAtFinger (s : FingerState) (param : Int) : Prop :=
  s.st = .stSearching →
    (process_cmd s .cmdEnroll param).1 = s ∧
    (process_cmd s .cmdEnroll param).2 = [.evtEnrollFail]

/-- Claim C4 as stated, instantiated at one frame, garbage prefix pair:
the transport reader of as608_send_cmd recovers from the prepended garbage
and produces the result it produces on the frame alone. -/
def c4ClaimAt (g f : List Nat) : Prop :=
  g.length < f.length → as608_recv (g ++ f) = as608_recv f

/-- A garbage prefix never mistaken for a frame start: no adjacent byte
pair 0xEF, 0x01 occurs inside it. -/
def cleanGarbage : List Nat → Prop
  | [] => True
  | [_] => True
  | a :: b :: rest => ¬(a = HDR_HI ∧ b = HDR_LO) ∧ cleanGarbage (b :: rest)

/-- Decidable equality for Except results. -/
instance exceptDecEq {ε α : Type} [DecidableEq ε] [DecidableEq α] :
    DecidableEq (Except ε α) := fun x y =>
  match x, y with
  | .error a, .error b =>
      if h : a = b then isTrue (by rw [h]) else isFalse (fun hh => h (by injection hh))
  | .ok a, .ok b =>
      if h : a = b then isTrue (by rw [h]) else isFalse (fun hh => h (by injection hh))
  | .error _, .ok _ => isFalse (fun hh => Except.noConfusion hh)
  | .ok _, .error _ => isFalse (fun hh => Except.noConfusion hh)

/-- bytesOk is decidable. -/
instance bytesOkDec (l : List Nat) : Decidable (bytesOk l) := by
  unfold bytesOk; infer_instance

/-- specMismatch is decidable. -/
instance specMismatchDec (buf : List Nat) : Decidable (specMismatch buf) := by
  unfold specMismatch; infer_instance

/-- The C1 claim instance is decidable. -/
instance c1ClaimAtDec (buf : List Nat) : Decidable (c1ClaimAt buf) := by
  unfold c1ClaimAt; infer_instance

/-- malformedClass is decidable. -/
instance malformedClassDec (e : EspErr) : Decidable (malformedClass e) := by
  unfold malformedClass; infer_instance

/-- transportErr is decidable. -/
instance transportErrDec (e : EspErr) : Decidable (transportErr e) := by
  unfold transportErr; infer_instance

/-- cleanGarbage is decidable. -/
instance cleanGarbageDec : (l : List Nat) → Decidable (cleanGarbage l)
  | [] => isTrue trivial
  | [_] => isTrue trivial
  | _ :: b :: rest =>
      have _ := cleanGarbageDec (b :: rest)
      by unfold cleanGarbage; infer_instance

/-- The C2 claim instance on the finger worker is decidable. -/
instance c2ClaimAtFingerDec (s : FingerState) (param : Int) :
    Decidable (c2ClaimAtFinger s param) := by
  unfold c2ClaimAtFinger; infer_instance

/-- The C4 claim instance is decidable. -/
instance c4ClaimAtDec (g f : List Nat) : Decidable (c4ClaimAt g f) := by
  unfold c4ClaimAt; infer_instance

/-! Helper lemmas. -/

/-- The uint16 running sum equals the plain sum reduced mod 2^16. -/
theorem u16sum_aux (l : List Nat) : ∀ a : Nat, a < 65536 →
    l.foldl (fun x b => (x + b) % 65536) a = (a + l.sum) % 65536 := by
  induction l with
  | nil => intro a ha; simp [Nat.mod_eq_of_lt ha]
  | cons b t ih =>
      intro a ha
      have hb : (a + b) % 65536 < 65536 := Nat.mod_lt _ (by omega)
      simp only [List.foldl_cons, List.sum_cons]
      rw [ih _ hb]
      omega

/-- The uint16 running sum equals the plain sum reduced mod 2^16. -/
theorem u16sum_eq (l : List Nat) : u16sum l = l.sum % 65536 := by
  simpa using u16sum_aux l 0 (by omega)

/-- getD of a byte-valid list is a byte. -/
theorem getD_lt_of_bytesOk : ∀ (l : List Nat) (i : Nat), bytesOk l → l.getD i 0 < 256 := by
  intro l
  induction l with
  | nil => intro i _; simp [List.getD]
  | cons a t ih =>
      intro i h
      cases i with
      | zero => exact h a (List.mem_cons_self a t)
      | succ j =>
          simp only [List.getD_cons_succ]
          exact ih j (fun b hb => h b (List.mem_cons_of_mem a hb))

/-- bytesOk restricts to sublists built by drop and take. -/
theorem bytesOk_drop (l : List Nat) (n : Nat) (h : bytesOk l) : bytesOk (l.drop n) :=
  fun b hb => h b (List.mem_of_mem_drop hb)

/-- bytesOk restricts to take. -/
theorem bytesOk_take (l : List Nat) (n : Nat) (h : bytesOk l) : bytesOk (l.take n) :=
  fun b hb => h b (List.mem_of_mem_take hb)

/-- Reduction of as608_parse_response once the fixed prefix checks pass. -/
theorem parse_reduce (buf : List Nat) (h12 : ¬buf.length < 12)
    (h0 : buf.getD 0 0 = HDR_HI) (h1 : buf.getD 1 0 = HDR_LO)
    (h6 : buf.getD 6 0 = PID_ACK) :
    as608_parse_response buf =
      if 9 + declaredLen buf > buf.length then .error .invalidSize
      else if chkCalc buf (declaredLen buf) ≠ chkRecv buf (declaredLen buf) then
        .error .invalidCrc
      else .ok (buf.getD 9 0, (declaredLen buf + SIZE_T_MOD - 3) % SIZE_T_MOD) := by
  simp only [as608_parse_response]
  rw [if_neg h12, if_neg (not_not_intro ⟨h0, h1⟩), if_neg (not_not_intro h6)]

/-! Claim C1. -/

/-- Claim C1 (corrected): full characterization of as608_parse_response on
byte buffers.  Buffers shorter than 12 bytes, with wrong header bytes or
with a packet type other than Ack fail with a malformed-frame error; in
addition - the correction - a buffer whose declared length overruns the
buffer fails with the size error; for buffers holding the whole frame a
checksum disagreement yields the checksum-mismatch error and otherwise,
when the declared length is at least 3, parsing succeeds with the
confirmation byte at offset 9 and payload length declaredLen - 3. -/
theorem parse_response_characterization (buf : List Nat) (hB : bytesOk buf) :
    (buf.length < 12 ∨ ¬(buf.getD 0 0 = HDR_HI ∧ buf.getD 1 0 = HDR_LO) ∨
        buf.getD 6 0 ≠ PID_ACK →
      as608_parse_response buf = .error .invalidSize ∨
      as608_parse_response buf = .error .invalidResponse) ∧
    (12 ≤ buf.length → buf.getD 0 0 = HDR_HI → buf.getD 1 0 = HDR_LO →
      buf.getD 6 0 = PID_ACK →
      (buf.length < 9 + declaredLen buf →
        as608_parse_response buf = .error .invalidSize) ∧
      (9 + declaredLen buf ≤ buf.length →
        (specMismatch buf → as608_parse_response buf = .error .invalidCrc) ∧
        (¬specMismatch buf → 3 ≤ declaredLen buf →
          as608_parse_response buf = .ok (buf.getD 9 0, declaredLen buf - 3)))) := by
  have hchk : chkCalc buf (declaredLen buf) = specCheck buf (declaredLen buf) := by
    simp [chkCalc, specCheck, u16sum_eq]
  constructor
  · intro h
    by_cases h12 : buf.length < 12
    · left
      simp only [as608_parse_response]
      rw [if_pos h12]
    · by_cases hhdr : buf.getD 0 0 = HDR_HI ∧ buf.getD 1 0 = HDR_LO
      · rcases h with h | h | h
        · exact absurd h h12
        · exact absurd hhdr h
        · right
          simp only [as608_parse_response]
          rw [if_neg h12, if_neg (not_not_intro hhdr), if_pos h]
      · right
        simp only [as608_parse_response]
        rw [if_neg h12, if_pos hhdr]
  · intro h12 h0 h1 h6
    have hnot12 : ¬buf.length < 12 := by omega
    have red := parse_reduce buf hnot12 h0 h1 h6
    constructor
    · intro hover
      rw [red, if_pos (by omega)]
    · intro hle
      have hnotover : ¬9 + declaredLen buf > buf.length := by omega
      constructor
      · intro hm
        have hm' : chkCalc buf (declaredLen buf) ≠ chkRecv buf (declaredLen buf) := by
          rw [hchk]; exact hm
        rw [red, if_neg hnotover, if_pos hm']
      · intro hnm h3
        have hmEq : ¬chkCalc buf (declaredLen buf) ≠ chkRecv buf (declaredLen buf) := by
          rw [hchk]; exact fun h => hnm h
        have hL : declaredLen buf < 65536 := by
          have h7 := getD_lt_of_bytesOk buf 7 hB
          have h8 := getD_lt_of_bytesOk buf 8 hB
          simp only [declaredLen]
          omega
        have hwrap : (declaredLen buf + SIZE_T_MOD - 3) % SIZE_T_MOD = declaredLen buf - 3 := by
          simp only [SIZE_T_MOD]
          omega
        rw [red, if_neg hnotover, if_neg hmEq, hwrap]

/-- Claim C1 counterexample: a 12-byte buffer with valid header and Ack
type but declared length 10 exceeds the buffer; the claim predicts a
checksum-mismatch or success, the code returns the size error. -/
theorem parse_response_claim_cex :
    ¬c1ClaimAt [0xEF, 0x01, 0xFF, 0xFF, 0xFF, 0xFF, 0x07, 0x00, 0x0A, 0, 0, 0] := by
  decide

/-- Witness of the C1 characterization at a concrete valid 16-byte frame. -/
theorem parse_response_characterization_witness :
    as608_parse_response
        [0xEF, 0x01, 0xFF, 0xFF, 0xFF, 0xFF, 0x07, 0x00, 0x07, 0, 1, 2, 3, 4, 0, 24] =
      .ok (0, 4) := by
  have h := parse_response_characterization
    [0xEF, 0x01, 0xFF, 0xFF, 0xFF, 0xFF, 0x07, 0x00, 0x07, 0, 1, 2, 3, 4, 0, 24]
    (by decide)
  have h2 := (((h.2 (by decide) (by decide) (by decide) (by decide)).2 (by decide)).2
    (by decide) (by decide))
  simpa using h2

/-! Claim C10. -/

/-- Claim C10: no lower bound on the declared length field.  The 12-byte
buffer with declared length 2 and matching checksum parses successfully
with confirmation Ok, and the size_t payload length wraps to 2^64 - 1, far
beyond the 12-byte input. -/
theorem parse_response_underflow :
    (([0xEF, 0x01, 0xFF, 0xFF, 0xFF, 0xFF, 0x07, 0x00, 0x02, 0x00, 0x09, 0] : List Nat).length
        = 12) ∧
    declaredLen [0xEF, 0x01, 0xFF, 0xFF, 0xFF, 0xFF, 0x07, 0x00, 0x02, 0x00, 0x09, 0] = 2 ∧
    as608_parse_response [0xEF, 0x01, 0xFF, 0xFF, 0xFF, 0xFF, 0x07, 0x00, 0x02, 0x00, 0x09, 0]
        = .ok (0, 2 ^ 64 - 1) ∧
    12 < 2 ^ 64 - 1 := by
  decide

/-- Xor with a power of two changes the value. -/
theorem xor_two_pow_ne (x b : Nat) : x ^^^ 2 ^ b ≠ x := by
  intro h
  have h2 : x ^^^ (x ^^^ 2 ^ b) = x ^^^ x := by rw [h]
  rw [← Nat.xor_assoc, Nat.xor_self, Nat.zero_xor] at h2
  have hp : (0:Nat) < 2 ^ b := pow_pos (by omega) b
  omega

/-- Xor of a byte with a low power of two stays a byte. -/
theorem xor_two_pow_lt (x b : Nat) (hx : x < 256) (hb : b < 8) : x ^^^ 2 ^ b < 256 := by
  have h2 : (2:Nat) ^ b < 256 := by
    have : (2:Nat) ^ b ≤ 2 ^ 7 := Nat.pow_le_pow_right (by omega) (by omega)
    omega
  exact Nat.xor_lt_two_pow (n := 8) hx h2

/-! Claim C9. -/

/-- Claim C9: for every opcode and parameter sequence that fits the 16-bit
length field, as608_build_cmd_packet emits exactly header, 4-byte broadcast
address, packet type 1, the big-endian length 1 + params + 2, the opcode,
the parameters and a big-endian checksum equal to the plain sum mod 2^16 of
every byte from the packet-type field through the end of the parameters;
the builder has no error case. -/
theorem build_cmd_packet_shape (cmd : Nat) (params : List Nat)
    (hlen : 1 + params.length + 2 < 65536) :
    as608_build_cmd_packet cmd params =
      [HDR_HI, HDR_LO, 0xFF, 0xFF, 0xFF, 0xFF]
        ++ ([PID_CMD, (1 + params.length + 2) / 256, (1 + params.length + 2) % 256, cmd]
              ++ params)
        ++ [(([PID_CMD, (1 + params.length + 2) / 256, (1 + params.length + 2) % 256, cmd]
               ++ params).sum % 65536) / 256,
            (([PID_CMD, (1 + params.length + 2) / 256, (1 + params.length + 2) % 256, cmd]
               ++ params).sum % 65536) % 256] ∧
    ((as608_build_cmd_packet cmd params).drop 6).take (4 + params.length) =
      [PID_CMD, (1 + params.length + 2) / 256, (1 + params.length + 2) % 256, cmd]
        ++ params := by
  have hmod : (1 + params.length + 2) % 65536 = 1 + params.length + 2 :=
    Nat.mod_eq_of_lt hlen
  have hhi : (1 + params.length + 2) / 256 % 256 = (1 + params.length + 2) / 256 := by
    have : (1 + params.length + 2) / 256 < 256 := by omega
    exact Nat.mod_eq_of_lt this
  have hck : u16sum ([PID_CMD, (1 + params.length + 2) / 256,
      (1 + params.length + 2) % 256, cmd] ++ params) =
      ([PID_CMD, (1 + params.length + 2) / 256, (1 + params.length + 2) % 256, cmd]
        ++ params).sum % 65536 := u16sum_eq _
  have hckhi : ∀ S : Nat, S % 65536 / 256 % 256 = S % 65536 / 256 := by
    intro S
    have : S % 65536 < 65536 := Nat.mod_lt _ (by omega)
    have : S % 65536 / 256 < 256 := by omega
    exact Nat.mod_eq_of_lt this
  have heq : as608_build_cmd_packet cmd params =
      [HDR_HI, HDR_LO, 0xFF, 0xFF, 0xFF, 0xFF]
        ++ ([PID_CMD, (1 + params.length + 2) / 256, (1 + params.length + 2) % 256, cmd]
              ++ params)
        ++ [(([PID_CMD, (1 + params.length + 2) / 256, (1 + params.length + 2) % 256, cmd]
               ++ params).sum % 65536) / 256,
            (([PID_CMD, (1 + params.length + 2) / 256, (1 + params.length + 2) % 256, cmd]
               ++ params).sum % 65536) % 256] := by
    simp only [as608_build_cmd_packet, hmod, hhi, hck, hckhi]
    simp
  refine ⟨heq, ?_⟩
  rw [heq, List.append_assoc]
  rw [List.drop_left' (by simp :
      ([HDR_HI, HDR_LO, 0xFF, 0xFF, 0xFF, 0xFF] : List Nat).length = 6)]
  rw [List.take_left' (show (([PID_CMD, (1 + params.length + 2) / 256,
      (1 + params.length + 2) % 256, cmd] ++ params) : List Nat).length = 4 + params.length
      by simp; omega)]

/-- Witness of the C9 shape theorem at the GetImage command. -/
theorem build_cmd_packet_shape_witness :
    as608_build_cmd_packet 0x01 [] =
      [0xEF, 0x01, 0xFF, 0xFF, 0xFF, 0xFF, 0x01, 0x00, 0x03, 0x01, 0x00, 0x05] := by
  have h := (build_cmd_packet_shape 0x01 [] (by decide)).1
  rw [h]
  decide

/-- as608_parse_response on a 16-byte response with valid header, Ack type
and declared length 7 reduces to the checksum comparison. -/
theorem parse16 (a2 a3 a4 a5 x9 x10 x11 x12 x13 x14 x15 : Nat) :
    as608_parse_response
        [HDR_HI, HDR_LO, a2, a3, a4, a5, PID_ACK, 0, 7, x9, x10, x11, x12, x13, x14, x15] =
      if (7 + 0 + 7 + x9 + x10 + x11 + x12 + x13) % 65536 ≠ x14 * 256 + x15 then
        .error .invalidCrc
      else .ok (x9, 4) := by
  have hlen : ¬([HDR_HI, HDR_LO, a2, a3, a4, a5, PID_ACK, 0, 7, x9, x10, x11, x12, x13,
      x14, x15] : List Nat).length < 12 := by simp
  rw [parse_reduce _ hlen rfl rfl rfl]
  have hd : declaredLen [HDR_HI, HDR_LO, a2, a3, a4, a5, PID_ACK, 0, 7, x9, x10, x11,
      x12, x13, x14, x15] = 7 := rfl
  rw [hd]
  have hc : chkCalc [HDR_HI, HDR_LO, a2, a3, a4, a5, PID_ACK, 0, 7, x9, x10, x11, x12,
      x13, x14, x15] 7 = (7 + 0 + 7 + x9 + x10 + x11 + x12 + x13) % 65536 := by
    show u16sum [PID_ACK, 0, 7, x9, x10, x11, x12, x13] = _
    rw [u16sum_eq]
    simp [PID_ACK]
    omega
  have hr : chkRecv [HDR_HI, HDR_LO, a2, a3, a4, a5, PID_ACK, 0, 7, x9, x10, x11, x12,
      x13, x14, x15] 7 = x14 * 256 + x15 := rfl
  have hw : (7 + SIZE_T_MOD - 3) % SIZE_T_MOD = 4 := by decide
  rw [if_neg (by simp), hc, hr, hw]
  rfl

/-! Claim C5. -/

/-- Claim C5 (corrected): the parser accepts every frame whose checksum
matches (first conjunct: on a buffer with valid header, packet type and
length it succeeds whenever the specification checksum agrees), and on an
otherwise well-formed 16-byte response flipping any single bit of the
payload bytes (offsets 10-13) or of the checksum bytes (offsets 14-15)
makes it fail with the checksum-mismatch error, never a successful result.
The original claim's wider scope - any byte covered by or holding the
checksum - is false: a flip of a length byte can still parse successfully,
see the counterexample. -/
theorem parse_accepts_and_rejects_bitflips :
    (∀ buf : List Nat, 12 ≤ buf.length →
      buf.getD 0 0 = HDR_HI → buf.getD 1 0 = HDR_LO → buf.getD 6 0 = PID_ACK →
      9 + declaredLen buf ≤ buf.length → ¬specMismatch buf →
      as608_parse_response buf =
        .ok (buf.getD 9 0, (declaredLen buf + SIZE_T_MOD - 3) % SIZE_T_MOD)) ∧
    (∀ a2 a3 a4 a5 b9 b10 b11 b12 b13 c14 c15 i bit : Nat,
      b9 < 256 → b10 < 256 → b11 < 256 → b12 < 256 → b13 < 256 →
      c14 < 256 → c15 < 256 → 10 ≤ i → i ≤ 15 → bit < 8 →
      ¬specMismatch [HDR_HI, HDR_LO, a2, a3, a4, a5, PID_ACK, 0, 7,
        b9, b10, b11, b12, b13, c14, c15] →
      as608_parse_response (flipBit [HDR_HI, HDR_LO, a2, a3, a4, a5, PID_ACK, 0, 7,
        b9, b10, b11, b12, b13, c14, c15] i bit) = .error .invalidCrc) := by
  constructor
  · intro buf h12 h0 h1 h6 hle hnm
    have hnot12 : ¬buf.length < 12 := by omega
    rw [parse_reduce buf hnot12 h0 h1 h6, if_neg (by omega)]
    have hchk : chkCalc buf (declaredLen buf) = specCheck buf (declaredLen buf) := by
      simp [chkCalc, specCheck, u16sum_eq]
    have hmEq : ¬chkCalc buf (declaredLen buf) ≠ chkRecv buf (declaredLen buf) := by
      rw [hchk]; exact fun h => hnm h
    rw [if_neg hmEq]
  · intro a2 a3 a4 a5 b9 b10 b11 b12 b13 c14 c15 i bit hb9 hb10 hb11 hb12 hb13
      hc14 hc15 hi10 hi15 hbit hnm
    have hm0 : specCheck [HDR_HI, HDR_LO, a2, a3, a4, a5, PID_ACK, 0, 7,
        b9, b10, b11, b12, b13, c14, c15] 7 =
        chkRecv [HDR_HI, HDR_LO, a2, a3, a4, a5, PID_ACK, 0, 7,
        b9, b10, b11, b12, b13, c14, c15] 7 := not_ne_iff.mp hnm
    have hm1 : specCheck [HDR_HI, HDR_LO, a2, a3, a4, a5, PID_ACK, 0, 7,
        b9, b10, b11, b12, b13, c14, c15] 7 =
        (7 + 0 + 7 + b9 + b10 + b11 + b12 + b13) % 65536 := by
      show ([PID_ACK, 0, 7, b9, b10, b11, b12, b13] : List Nat).sum % 65536 = _
      simp [PID_ACK]
      omega
    have hm2 : chkRecv [HDR_HI, HDR_LO, a2, a3, a4, a5, PID_ACK, 0, 7,
        b9, b10, b11, b12, b13, c14, c15] 7 = c14 * 256 + c15 := rfl
    rw [hm1, hm2] at hm0
    interval_cases i
    · have hy1 := xor_two_pow_ne b10 bit
      have hy2 := xor_two_pow_lt b10 bit hb10 hbit
      rw [show flipBit [HDR_HI, HDR_LO, a2, a3, a4, a5, PID_ACK, 0, 7,
          b9, b10, b11, b12, b13, c14, c15] 10 bit =
          [HDR_HI, HDR_LO, a2, a3, a4, a5, PID_ACK, 0, 7,
          b9, b10 ^^^ 2 ^ bit, b11, b12, b13, c14, c15] from rfl]
      rw [parse16, if_pos (by omega)]
    · have hy1 := xor_two_pow_ne b11 bit
      have hy2 := xor_two_pow_lt b11 bit hb11 hbit
      rw [show flipBit [HDR_HI, HDR_LO, a2, a3, a4, a5, PID_ACK, 0, 7,
          b9, b10, b11, b12, b13, c14, c15] 11 bit =
          [HDR_HI, HDR_LO, a2, a3, a4, a5, PID_ACK, 0, 7,
          b9, b10, b11 ^^^ 2 ^ bit, b12, b13, c14, c15] from rfl]
      rw [parse16, if_pos (by omega)]
    · have hy1 := xor_two_pow_ne b12 bit
      have hy2 := xor_two_pow_lt b12 bit hb12 hbit
      rw [show flipBit [HDR_HI, HDR_LO, a2, a3, a4, a5, PID_ACK, 0, 7,
          b9, b10, b11, b12, b13, c14, c15] 12 bit =
          [HDR_HI, HDR_LO, a2, a3, a4, a5, PID_ACK, 0, 7,
          b9, b10, b11, b12 ^^^ 2 ^ bit, b13, c14, c15] from rfl]
      rw [parse16, if_pos (by omega)]
    · have hy1 := xor_two_pow_ne b13 bit
      have hy2 := xor_two_pow_lt b13 bit hb13 hbit
      rw [show flipBit [HDR_HI, HDR_LO, a2, a3, a4, a5, PID_ACK, 0, 7,
          b9, b10, b11, b12, b13, c14, c15] 13 bit =
          [HDR_HI, HDR_LO, a2, a3, a4, a5, PID_ACK, 0, 7,
          b9, b10, b11, b12, b13 ^^^ 2 ^ bit, c14, c15] from rfl]
      rw [parse16, if_pos (by omega)]
    · have hy1 := xor_two_pow_ne c14 bit
      have hy2 := xor_two_pow_lt c14 bit hc14 hbit
      rw [show flipBit [HDR_HI, HDR_LO, a2, a3, a4, a5, PID_ACK, 0, 7,
          b9, b10, b11, b12, b13, c14, c15] 14 bit =
          [HDR_HI, HDR_LO, a2, a3, a4, a5, PID_ACK, 0, 7,
          b9, b10, b11, b12, b13, c14 ^^^ 2 ^ bit, c15] from rfl]
      rw [parse16, if_pos (by omega)]
    · have hy1 := xor_two_pow_ne c15 bit
      have hy2 := xor_two_pow_lt c15 bit hc15 hbit
      rw [show flipBit [HDR_HI, HDR_LO, a2, a3, a4, a5, PID_ACK, 0, 7,
          b9, b10, b11, b12, b13, c14, c15] 15 bit =
          [HDR_HI, HDR_LO, a2, a3, a4, a5, PID_ACK, 0, 7,
          b9, b10, b11, b12, b13, c14, c15 ^^^ 2 ^ bit] from rfl]
      rw [parse16, if_pos (by omega)]

/-- Witness of the C5 theorem: the concrete frame accepted, and its bit-10
flip at bit 0 rejected with the checksum error. -/
theorem parse_accepts_and_rejects_bitflips_witness :
    as608_parse_response
        [0xEF, 0x01, 0xFF, 0xFF, 0xFF, 0xFF, 0x07, 0, 7, 0, 1, 2, 3, 4, 0, 24] =
      .ok (0, 4) ∧
    as608_parse_response
        (flipBit [0xEF, 0x01, 0xFF, 0xFF, 0xFF, 0xFF, 0x07, 0, 7, 0, 1, 2, 3, 4, 0, 24]
          10 0) = .error .invalidCrc := by
  constructor
  · have h := parse_accepts_and_rejects_bitflips.1
      [0xEF, 0x01, 0xFF, 0xFF, 0xFF, 0xFF, 0x07, 0, 7, 0, 1, 2, 3, 4, 0, 24]
      (by decide) (by decide) (by decide) (by decide) (by decide) (by decide)
    simpa using h
  · exact parse_accepts_and_rejects_bitflips.2 0xFF 0xFF 0xFF 0xFF 0 1 2 3 4 0 24 10 0
      (by decide) (by decide) (by decide) (by decide) (by decide) (by decide) (by decide)
      (by decide) (by decide) (by decide) (by decide)

/-- Claim C5 counterexample: the original claim also covers corrupting any
byte covered by the checksum, and there it fails.  The 16-byte response
EF 01 FF FF FF FF 07 00 07 00 00 0A 00 00 00 18 is well formed (it parses
Ok); flipping bit 2 of byte 8 - the length low byte, a checksum-covered
byte - turns the declared length into 3, whose checksum over bytes 6..9
(0x0A) matches bytes 10..11, so the parser returns a successful Ok with
confirmation 0x00 instead of a checksum-mismatch failure. -/
theorem parse_bitflip_claim_cex :
    as608_parse_response
        [0xEF, 0x01, 0xFF, 0xFF, 0xFF, 0xFF, 0x07, 0x00, 0x07, 0x00, 0x00, 0x0A,
         0x00, 0x00, 0x00, 0x18] = .ok (0, 4) ∧
    flipBit [0xEF, 0x01, 0xFF, 0xFF, 0xFF, 0xFF, 0x07, 0x00, 0x07, 0x00, 0x00, 0x0A,
         0x00, 0x00, 0x00, 0x18] 8 2 =
      [0xEF, 0x01, 0xFF, 0xFF, 0xFF, 0xFF, 0x07, 0x00, 0x03, 0x00, 0x00, 0x0A,
         0x00, 0x00, 0x00, 0x18] ∧
    as608_parse_response
        (flipBit [0xEF, 0x01, 0xFF, 0xFF, 0xFF, 0xFF, 0x07, 0x00, 0x07, 0x00, 0x00, 0x0A,
         0x00, 0x00, 0x00, 0x18] 8 2) = .ok (0, 0) ∧
    as608_parse_response
        (flipBit [0xEF, 0x01, 0xFF, 0xFF, 0xFF, 0xFF, 0x07, 0x00, 0x07, 0x00, 0x00, 0x0A,
         0x00, 0x00, 0x00, 0x18] 8 2) ≠ .error .invalidCrc := by
  decide

/-- processEnroll does nothing in the idle state. -/
theorem processEnroll_idle (s : AS608State) (r : Reply) (h : s.enrollState = .idle) :
    processEnroll s r = (s, [], []) := by
  simp [processEnroll, h]

/-- A run of processEnroll from an idle enrollment machine issues no
commands and fires no events. -/
theorem runEnroll_idle (s : AS608State) (h : s.enrollState = .idle) :
    ∀ tr : List Reply, runEnroll s tr = (s, [], []) := by
  intro tr
  induction tr with
  | nil => rfl
  | cons r rs ih => simp [runEnroll, processEnroll_idle s r h, ih]

/-! Claim C6. -/

/-- Claim C6: the literal happy-path enrollment run.  After startEnroll 5
on an initialized sensor, the reply sequence capture Ok, genChar1 Ok,
capture NoFinger (removal debounce), capture Ok, genChar2 Ok, regModel Ok,
store Ok produces exactly one EnrollComplete event, it carries slot id 5,
and no EnrollFailed event is fired; the machine returns to idle. -/
theorem enroll_happy_path :
    ((runEnroll (startEnroll (doInit as608Init) 5).2.1
        [.ok (0, []), .ok (0, []), .ok (2, []), .ok (0, []), .ok (0, []), .ok (0, []),
         .ok (0, [])]).2.1.filter
            (fun e => e.1 == AsEvent.enrollComplete)).map (fun e => e.2.id) = [5] ∧
    (runEnroll (startEnroll (doInit as608Init) 5).2.1
        [.ok (0, []), .ok (0, []), .ok (2, []), .ok (0, []), .ok (0, []), .ok (0, []),
         .ok (0, [])]).2.1.filter (fun e => e.1 == AsEvent.enrollFailed) = [] ∧
    (runEnroll (startEnroll (doInit as608Init) 5).2.1
        [.ok (0, []), .ok (0, []), .ok (2, []), .ok (0, []), .ok (0, []), .ok (0, []),
         .ok (0, [])]).1.enrollState = .idle := by
  decide

/-! Claim C8. -/

/-- Claim C8: a search cycle that only ever sees the NoFinger confirmation
never aborts, never counts a retry and emits no events: any number of
NoFinger polls leaves the machine in the very same waiting state, the
issued commands being the GetImage polls. -/
theorem search_nofinger_loop (s : AS608State) (h : s.matchState = .waitFinger) :
    ∀ n : Nat, runMatch s (List.replicate n (.ok (0x02, []))) =
      (s, [], List.replicate n .getImage) := by
  have hstep : processMatch s (.ok (0x02, [])) = (s, [], [.getImage]) := by
    simp [processMatch, h, readImageR]
  intro n
  induction n with
  | zero => rfl
  | succ k ih => simp [List.replicate_succ, runMatch, hstep, ih]

/-- Witness of the C8 loop at a freshly started match cycle, three polls. -/
theorem search_nofinger_loop_witness :
    runMatch (startMatch (doInit as608Init)).2.1
        (List.replicate 3 (.ok (0x02, []))) =
      ((startMatch (doInit as608Init)).2.1, [], List.replicate 3 .getImage) :=
  search_nofinger_loop (startMatch (doInit as608Init)).2.1 (by decide) 3

/-! Claim C3. -/

/-- Claim C3: a CombineFail (0x0A) confirmation at the CreateModel step
aborts the session with a single EnrollFailed event whose error field is
ESP_FAIL, issues only the regModel command (no store), resets to idle so
that CreateModel is never retried and nothing further is issued; a
transport failure at the same step instead carries that transport error in
the event, and no transport error equals ESP_FAIL, so the two reasons are
distinguishable. -/
theorem enroll_combine_fail (s : AS608State) (h : s.enrollState = .createModel) :
    processEnroll s (.ok (0x0A, [])) =
      (resetEnroll s,
       [(.enrollFailed,
         { defED with id := s.enrollTargetId, totalSteps := ENROLL_TOTAL_STEPS, error := .fail })],
       [.regModelOp]) ∧
    (resetEnroll s).enrollState = .idle ∧
    (∀ tr : List Reply, runEnroll (resetEnroll s) tr = (resetEnroll s, [], [])) ∧
    (∀ e : EspErr, transportErr e →
      processEnroll s (.error e) =
        (resetEnroll s,
         [(.enrollFailed,
           { defED with id := s.enrollTargetId, totalSteps := ENROLL_TOTAL_STEPS, error := e })],
         [.regModelOp]) ∧
      e ≠ .fail) := by
  refine ⟨?_, rfl, runEnroll_idle _ rfl, ?_⟩
  · simp [processEnroll, h, regModelR]
  · intro e he
    constructor
    · rcases he with h1 | h1 | h1 | h1 <;> subst h1 <;> simp [processEnroll, h, regModelR]
    · rcases he with h1 | h1 | h1 | h1 <;> subst h1 <;> decide

/-- Witness of the C3 theorem at a concrete mid-enrollment state. -/
theorem enroll_combine_fail_witness :
    processEnroll ⟨true, .createModel, 5, 3, 0, .idle, 0⟩ (.ok (0x0A, [])) =
      (resetEnroll ⟨true, .createModel, 5, 3, 0, .idle, 0⟩,
       [(.enrollFailed,
         { defED with id := 5, totalSteps := ENROLL_TOTAL_STEPS, error := .fail })],
       [.regModelOp]) := by
  have h := (enroll_combine_fail ⟨true, .createModel, 5, 3, 0, .idle, 0⟩ rfl).1
  exact h.trans (by decide)

/-! Claim C7. -/

/-- Claim C7: the Search step issues the full-library search, start page 0
and count DEFAULT_LIBRARY_SIZE = 163, and maps outcomes as the claim
states: confirmation Ok with a four-byte payload fires MatchOk carrying the
decoded slot id and score; NotFound (0x09) or NoMatch (0x08) fires
MatchFailed, not an error; a transport failure or any other confirmation
fires the Error event.  Every outcome resets the cycle. -/
theorem search_step_mapping (s : AS608State) (h : s.matchState = .search) :
    searchParams = [0x01, 0x00, 0x00] ++
      [DEFAULT_LIBRARY_SIZE / 256, DEFAULT_LIBRARY_SIZE % 256] ∧
    (∀ r : Reply, (processMatch s r).2.2 = [.searchOp searchParams]) ∧
    (∀ d0 d1 d2 d3 : Nat, ∀ rest : List Nat,
      processMatch s (.ok (0, d0 :: d1 :: d2 :: d3 :: rest)) =
        (resetMatch s,
         [(.matchOk,
           { defED with id := (d0 : Int) * 256 + (d1 : Int), score := d2 * 256 + d3 })],
         [.searchOp searchParams])) ∧
    (∀ c : Nat, c = 0x09 ∨ c = 0x08 → ∀ d : List Nat,
      processMatch s (.ok (c, d)) =
        (resetMatch s, [(.matchFailed, defED)], [.searchOp searchParams])) ∧
    (∀ e : EspErr, transportErr e →
      processMatch s (.error e) =
        (resetMatch s, [(.errorEvt, { defED with error := e })],
         [.searchOp searchParams])) ∧
    (∀ c : Nat, ∀ d : List Nat, c ≠ 0 → c ≠ 0x08 → c ≠ 0x09 →
      processMatch s (.ok (c, d)) =
        (resetMatch s, [(.errorEvt, { defED with error := .fail })],
         [.searchOp searchParams])) := by
  refine ⟨by decide, ?_, ?_, ?_, ?_, ?_⟩
  · intro r
    rcases r with e | ⟨c, d⟩ <;> simp [processMatch, h, searchR] <;> split_ifs <;> rfl
  · intro d0 d1 d2 d3 rest
    simp [processMatch, h, searchR]
  · intro c hc d
    rcases hc with h1 | h1 <;> subst h1 <;> simp [processMatch, h, searchR]
  · intro e he
    rcases he with h1 | h1 | h1 | h1 <;> subst h1 <;> simp [processMatch, h, searchR]
  · intro c d hc0 hc8 hc9
    simp [processMatch, h, searchR, hc0, hc8, hc9]

/-- Witness of the C7 mapping at a concrete search state and a match at
slot 3 with score 0x0120. -/
theorem search_step_mapping_witness :
    processMatch ⟨true, .idle, -1, 0, 0, .search, 0⟩ (.ok (0, [0, 3, 1, 0x20])) =
      (resetMatch ⟨true, .idle, -1, 0, 0, .search, 0⟩,
       [(.matchOk, { defED with id := 3, score := 0x0120 })],
       [.searchOp searchParams]) := by
  have h := (search_step_mapping ⟨true, .idle, -1, 0, 0, .search, 0⟩ rfl).2.2.1 0 3 1 0x20 []
  exact h.trans (by decide)

/-- processEnroll never touches the match machine. -/
theorem processEnroll_matchState (s : AS608State) (r : Reply) :
    (processEnroll s r).1.matchState = s.matchState := by
  cases hs : s.enrollState <;> simp [processEnroll, hs, resetEnroll] <;>
    split_ifs <;> rfl

/-- processMatch never touches the enrollment machine. -/
theorem processMatch_enrollState (s : AS608State) (r : Reply) :
    (processMatch s r).1.enrollState = s.enrollState := by
  cases hs : s.matchState <;> simp [processMatch, hs, resetMatch] <;>
    split_ifs <;> rfl

/-- processMatch does nothing in the idle state. -/
theorem processMatch_idle (s : AS608State) (r : Reply) (h : s.matchState = .idle) :
    processMatch s r = (s, [], []) := by
  simp [processMatch, h]

/-- Every public transition preserves mutual exclusion of the enrollment
and match machines. -/
theorem asStep_preserves_exclusion (s s' : AS608State) (hstep : AsStep s s')
    (hi : s.enrollState = .idle ∨ s.matchState = .idle) :
    s'.enrollState = .idle ∨ s'.matchState = .idle := by
  cases hstep with
  | init => simpa [doInit] using hi
  | deinit =>
      by_cases hin : s.inited
      · left
        simp [doDeinit, hin, cancelMatch, cancelEnroll, resetMatch, resetEnroll]
        split_ifs <;> simp_all
      · simpa [doDeinit, hin] using hi
  | startEnrollStep id =>
      unfold startEnroll
      split_ifs with h1 h2 h3 h4 <;> simp_all
  | cancelEnrollStep =>
      unfold cancelEnroll
      split_ifs with h1
      · left; rfl
      · exact hi
  | startMatchStep =>
      unfold startMatch
      split_ifs with h1 h2 h3 <;> simp_all
  | cancelMatchStep =>
      unfold cancelMatch
      split_ifs with h1
      · right; rfl
      · exact hi
  | processEnrollStep r =>
      rcases hi with hi | hi
      · rw [processEnroll_idle s r hi]; exact .inl hi
      · right; rw [processEnroll_matchState]; exact hi
  | processMatchStep r =>
      rcases hi with hi | hi
      · left; rw [processMatch_enrollState]; exact hi
      · rw [processMatch_idle s r hi]; exact .inr hi

/-- In every reachable state at most one of the enrollment session and the
match cycle is active. -/
theorem as608_exclusive_invariant (s : AS608State) (hr : AsReachable s) :
    s.enrollState = .idle ∨ s.matchState = .idle := by
  induction hr with
  | base => exact .inl rfl
  | step hr hstep ih => exact asStep_preserves_exclusion _ _ hstep ih

/-! Claim C2. -/

/-- Claim C2 (corrected, AS608 engine part): in every reachable state of
the AS608 object at most one of the enrollment session and the match cycle
is active, and whenever the match cycle is active a startEnroll call
returns the invalid-state rejection, leaves the whole state (including the
match cycle) unchanged and fires no event. -/
theorem startEnroll_rejected_while_matching (s : AS608State) (hr : AsReachable s) :
    (s.enrollState = .idle ∨ s.matchState = .idle) ∧
    (s.matchState ≠ .idle → ∀ tid : Int,
      (startEnroll s tid).1 = .invalidState ∧ (startEnroll s tid).2.1 = s ∧
      (startEnroll s tid).2.2 = []) := by
  refine ⟨as608_exclusive_invariant s hr, ?_⟩
  intro hm tid
  unfold startEnroll
  split_ifs with h1 h2 <;> simp_all

/-- Claim C2 counterexample, on the queue-driven finger worker of
finger.c: an enroll command processed while the worker is searching is not
rejected - it switches the worker to the first enrollment state and posts
the enroll-start event, so the active search cycle is not left unchanged. -/
theorem finger_enroll_while_search_cex :
    (process_cmd ⟨.stSearching, -1, 0⟩ .cmdEnroll 5).1.st = .stEnrollStep1 ∧
    (process_cmd ⟨.stSearching, -1, 0⟩ .cmdEnroll 5).2 = [.evtEnrollStart 5 1] ∧
    ¬c2ClaimAtFinger ⟨.stSearching, -1, 0⟩ 5 := by
  decide

/-- Witness of the C2 theorem at a concrete reachable state with an active
match cycle. -/
theorem startEnroll_rejected_while_matching_witness :
    (startEnroll (startMatch (doInit as608Init)).2.1 7).1 = .invalidState ∧
    (startEnroll (startMatch (doInit as608Init)).2.1 7).2.1 =
      (startMatch (doInit as608Init)).2.1 := by
  have hr : AsReachable (startMatch (doInit as608Init)).2.1 :=
    .step (.step .base (.init _)) (.startMatchStep _)
  have h := (startEnroll_rejected_while_matching _ hr).2 (by decide) 7
  exact ⟨h.1, h.2.1⟩

/-- getD commutes with take below the cut. -/
theorem getD_take (l : List Nat) (m i : Nat) (h : i < m) :
    (l.take m).getD i 0 = l.getD i 0 := by
  induction l generalizing m i with
  | nil => simp
  | cons a t ih =>
      cases m with
      | zero => omega
      | succ m' =>
          cases i with
          | zero => rfl
          | succ i' =>
              simp only [List.take_succ_cons, List.getD_cons_succ]
              exact ih m' i' (by omega)

/-- The header scan over a clean garbage prefix followed by bytes starting
with the header signature finds the header exactly at the end of the
garbage. -/
theorem findHeaderFrom_clean (g : List Nat) :
    ∀ (rest : List Nat) (i : Nat), cleanGarbage g →
      rest.getD 0 0 = HDR_HI → rest.getD 1 0 = HDR_LO → 2 ≤ rest.length →
      findHeaderFrom (g ++ rest) i = some (i + g.length) := by
  induction g with
  | nil =>
      intro rest i _ h0 h1 h2
      match rest, h2 with
      | a :: b :: t, _ =>
          simp only [List.getD_cons_zero, List.getD_cons_succ] at h0 h1
          subst h0; subst h1
          simp [findHeaderFrom]
  | cons x g' ih =>
      intro rest i hclean h0 h1 h2
      cases g' with
      | nil =>
          match rest, h2 with
          | a :: b :: t, _ =>
              simp only [List.getD_cons_zero, List.getD_cons_succ] at h0 h1
              subst h0; subst h1
              show findHeaderFrom (x :: HDR_HI :: HDR_LO :: t) i = some (i + 1)
              rw [show findHeaderFrom (x :: HDR_HI :: HDR_LO :: t) i =
                  if x = HDR_HI ∧ HDR_HI = HDR_LO then some i
                  else findHeaderFrom (HDR_HI :: HDR_LO :: t) (i + 1) from rfl]
              rw [if_neg (by simp [HDR_HI, HDR_LO])]
              simp [findHeaderFrom]
      | cons y t' =>
          obtain ⟨hxy, hcl⟩ := hclean
          show findHeaderFrom (x :: ((y :: t') ++ rest)) i = _
          rw [show findHeaderFrom (x :: ((y :: t') ++ rest)) i =
              if x = HDR_HI ∧ y = HDR_LO then some i
              else findHeaderFrom ((y :: t') ++ rest) (i + 1) from rfl]
          rw [if_neg hxy, ih rest (i + 1) hcl h0 h1 h2]
          congr 1
          simp
          omega

/-- recvValidate depends on the stream only through the bytes remaining
after the consumed position. -/
theorem recvValidate_congr (s1 s2 buf : List Nat) (p1 p2 : Nat)
    (h : s1.drop p1 = s2.drop p2) :
    recvValidate s1 buf p1 = recvValidate s2 buf p2 := by
  unfold recvValidate
  rw [h]

/-! Claim C4. -/

/-- Claim C4 (corrected): the resynchronisation of as608_send_cmd recovers
the exact result of the garbage-free run whenever at most 7 garbage bytes
precede the frame and the garbage contains no spurious header pair - the
header is then found inside the first 9-byte read.  (For 8 to 15 garbage
bytes the reader instead loses frame bytes it has already consumed and
fails with a timeout, see the counterexample.) -/
theorem recv_resync (g f : List Nat) (hk : g.length ≤ 7) (hclean : cleanGarbage g)
    (hf0 : f.getD 0 0 = HDR_HI) (hf1 : f.getD 1 0 = HDR_LO) (hflen : 12 ≤ f.length) :
    as608_recv (g ++ f) = as608_recv f := by
  rcases Nat.eq_zero_or_pos g.length with hg0 | hgpos
  · rw [List.length_eq_zero.mp hg0]
    rfl
  · -- both sides reduce to recvValidate on the frame prefix
    have hk9 : g.length < 9 := by omega
    -- the right-hand side
    have hr1f : (f.take 9).length = 9 := by
      simp [List.length_take]; omega
    have hfh_f : findHeader (f.take 9) = some 0 := by
      have := findHeaderFrom_clean [] (f.take 9) 0 trivial
        (by rw [getD_take f 9 0 (by omega)]; exact hf0)
        (by rw [getD_take f 9 1 (by omega)]; exact hf1)
        (by simp [List.length_take]; omega)
      simpa [findHeader] using this
    have hrhs : as608_recv f = recvValidate f (f.take 9) 9 := by
      simp only [as608_recv]
      rw [if_neg (by omega)]
      simp only [hfh_f]
      simp only [recvAfterSync, hr1f]
      rw [if_neg (by omega)]
    -- the left-hand side
    have hs9 : ((g ++ f).take 9).length = 9 := by
      simp [List.length_take]; omega
    have htake9 : (g ++ f).take 9 = g ++ f.take (9 - g.length) := by
      rw [List.take_append_eq_append_take, List.take_of_length_le (by omega)]
    have hfh_s : findHeader ((g ++ f).take 9) = some g.length := by
      rw [htake9]
      have := findHeaderFrom_clean g (f.take (9 - g.length)) 0 hclean
        (by rw [getD_take f _ 0 (by omega)]; exact hf0)
        (by rw [getD_take f _ 1 (by omega)]; exact hf1)
        (by simp [List.length_take]; omega)
      simpa [findHeader] using this
    have hdropk : ((g ++ f).take 9).drop g.length = f.take (9 - g.length) := by
      rw [htake9, List.drop_left]
    have hlen0 : (f.take (9 - g.length)).length = 9 - g.length := by
      simp [List.length_take]; omega
    have hdrop9 : (g ++ f).drop 9 = f.drop (9 - g.length) := by
      rw [List.drop_append_eq_append_drop, List.drop_eq_nil_of_le (by omega)]
      rfl
    have hmore : ((g ++ f).drop 9).take (9 - (9 - g.length)) =
        (f.drop (9 - g.length)).take g.length := by
      rw [hdrop9]
      congr 1
      omega
    have hmorelen : ((f.drop (9 - g.length)).take g.length).length = g.length := by
      simp [List.length_take, List.length_drop]
      omega
    have hassemble : f.take (9 - g.length) ++ (f.drop (9 - g.length)).take g.length =
        f.take 9 := by
      rw [← List.take_add]
      congr 1
      omega
    have hdroppos : (g ++ f).drop (9 + g.length) = f.drop 9 := by
      rw [List.drop_append_eq_append_drop, List.drop_eq_nil_of_le (by omega)]
      simp only [List.nil_append]
      congr 1
      omega
    have hlhs : as608_recv (g ++ f) =
        recvValidate (g ++ f) (f.take 9) (9 + g.length) := by
      simp only [as608_recv]
      rw [if_neg (by omega)]
      simp only [hfh_s]
      simp only [recvAfterSync, hs9]
      rw [if_pos hgpos, hdropk]
      rw [if_pos (by omega : (f.take (9 - g.length)).length < 9)]
      rw [hlen0, hmore]
      rw [if_neg (by omega : ¬((f.drop (9 - g.length)).take g.length).length <
        9 - (9 - g.length))]
      rw [hassemble]
      congr 1
      omega
    rw [hlhs, hrhs]
    exact recvValidate_congr _ _ _ _ _ (by rw [hdroppos])

/-- Claim C4 counterexample: eight zero garbage bytes before a valid
12-byte frame (8 < frame length): the reader has consumed frame bytes it
then discards, so it times out instead of recovering the k = 0 result. -/
theorem recv_resync_cex :
    as608_recv [0xEF, 0x01, 0xFF, 0xFF, 0xFF, 0xFF, 0x07, 0x00, 0x03, 0x00, 0x00, 0x0A] =
      .ok [0] ∧
    as608_recv ([0, 0, 0, 0, 0, 0, 0, 0] ++
      [0xEF, 0x01, 0xFF, 0xFF, 0xFF, 0xFF, 0x07, 0x00, 0x03, 0x00, 0x00, 0x0A]) =
      .error .timeout ∧
    ¬c4ClaimAt [0, 0, 0, 0, 0, 0, 0, 0]
      [0xEF, 0x01, 0xFF, 0xFF, 0xFF, 0xFF, 0x07, 0x00, 0x03, 0x00, 0x00, 0x0A] := by
  decide

/-- Witness of the C4 resynchronisation theorem with three garbage bytes. -/
theorem recv_resync_witness :
    as608_recv ([0, 0, 0] ++
      [0xEF, 0x01, 0xFF, 0xFF, 0xFF, 0xFF, 0x07, 0x00, 0x03, 0x00, 0x00, 0x0A]) =
    as608_recv [0xEF, 0x01, 0xFF, 0xFF, 0xFF, 0xFF, 0x07, 0x00, 0x03, 0x00, 0x00, 0x0A] :=
  recv_resync [0, 0, 0] [0xEF, 0x01, 0xFF, 0xFF, 0xFF, 0xFF, 0x07, 0x00, 0x03, 0x00, 0x00, 0x0A]
    (by decide) (by decide) (by decide) (by decide) (by decide)

end AS608V
